import Mathlib

/-!
Shallow embedding of the `verify` command of the notary CLI fragment
(`cmd/notation/verify.go`) and of the experimental-feature gate
(`internal/experimental/experimental.go`).

External collaborators (the verifier library, the repository accessor,
the CLI framework) are modelled by explicit inputs: an environment record
carries the responses each collaborator gives during one invocation.
Printing is modelled by returning the lists of stdout and stderr lines.
-/

/-- One per-check verification result of an outcome
(`notation.ValidationResult` of the verifier library): a check type,
the action taken, and an optional error. -/
structure ValidationResult where
  vtype : String
  action : String
  error : Option String
deriving DecidableEq

/-- A trust-policy verification level (`trustpolicy.VerificationLevel`),
identified by its name; `reflect.DeepEqual` on levels is modelled by
structural equality. -/
structure VerificationLevel where
  name : String
deriving DecidableEq

/-- The constant `trustpolicy.LevelSkip`. -/
def levelSkip : VerificationLevel := ⟨"skip"⟩

/-- One verification outcome (`notation.VerificationOutcome`): the level it
was evaluated at, the per-check results, and the user metadata embedded in
the signature. `userMetadata` is the first component of the Go method
`UserMetadata()`; its error component is modelled by `userMetadataErr` and
is ignored by the call site, exactly as the Go code discards it. -/
structure VerificationOutcome where
  verificationLevel : VerificationLevel
  verificationResults : List ValidationResult
  userMetadata : List (String × String)
  userMetadataErr : Option String
deriving DecidableEq

/-- An error returned by the external `Verify` call.
`verificationFailed` models `notation.ErrorVerificationFailed`; `other`
models any other error. `errors.As` against `ErrorVerificationFailed`
succeeds exactly on `verificationFailed`. -/
inductive VerifyError where
  | verificationFailed (msg : String)
  | other (msg : String)
deriving DecidableEq

/-- The message carried by a verifier error. -/
def VerifyError.message : VerifyError → String
  | .verificationFailed msg => msg
  | .other msg => msg

/-- Whether `errors.As(err, &notation.ErrorVerificationFailed{})` succeeds. -/
def VerifyError.isVerificationFailed : VerifyError → Bool
  | .verificationFailed _ => true
  | .other _ => false

/-- `checkVerificationFailure` of `verify.go`: classifies the verifier call
result. A `some` result is the non-nil error returned to the caller. -/
def checkVerificationFailure (outcomes : List VerificationOutcome)
    (printOut : String) (err : Option VerifyError) : Option String :=
  if err.isSome || outcomes.isEmpty then
    match err with
    | some e =>
      if !e.isVerificationFailed then
        some ("signature verification failed: " ++ e.message)
      else
        some ("signature verification failed for all the signatures associated with " ++ printOut)
    | none =>
      some ("signature verification failed for all the signatures associated with " ++ printOut)
  else
    none

/-- Text printed during one invocation, split by stream. -/
structure Output where
  stdout : List String
  stderr : List String
deriving DecidableEq

/-- The warning line printed for a per-check result that carries an error
(the `fmt.Fprintf` in the loop of `reportVerificationSuccess`). -/
def warningLine (r : ValidationResult) : String :=
  "Warning: " ++ r.vtype ++ " was set to \"" ++ r.action ++ "\" and failed with error: "
    ++ r.error.getD ""

/-- Modelled from the spec: `ioutil.PrintMetadataMap` is not part of this
fragment; the spec only says the user metadata key/value pairs are printed.
One line per pair. -/
def printMetadataMap (metadata : List (String × String)) : List String :=
  metadata.map (fun kv => kv.1 ++ ": " ++ kv.2)

/-- `printMetadataIfPresent` of `verify.go`: the error component of
`outcome.UserMetadata()` is discarded; if the metadata is non-empty a
header line and the pairs are printed, otherwise nothing. -/
def printMetadataIfPresent (outcome : VerificationOutcome) : List String :=
  let metadata := outcome.userMetadata
  if metadata.length > 0 then
    "\nThe artifact was signed with the following user metadata." :: printMetadataMap metadata
  else
    []

/-- The body of `reportVerificationSuccess` after `outcome := outcomes[0]`:
warnings on stderr for every per-check result with a non-nil error, then
either the skip line or the success line plus optional metadata on stdout. -/
def reportOutcome (outcome : VerificationOutcome) (printout : String) : Output :=
  let warnings :=
    (outcome.verificationResults.filter (fun r => r.error.isSome)).map warningLine
  if outcome.verificationLevel = levelSkip then
    ⟨["Trust policy is configured to skip signature verification for " ++ printout], warnings⟩
  else
    ⟨("Successfully verified signature for " ++ printout) :: printMetadataIfPresent outcome,
      warnings⟩

/-- `reportVerificationSuccess` of `verify.go`. The unguarded Go index
`outcomes[0]` is modelled by `head?`: a `none` result corresponds to the
out-of-range panic the Go code would hit on an empty list. -/
def reportVerificationSuccess (outcomes : List VerificationOutcome)
    (printout : String) : Option Output :=
  outcomes.head?.map (fun outcome => reportOutcome outcome printout)

/-- Splits a character list at the first `=`, giving the key and value
characters when a `=` occurs and `none` otherwise. -/
def cutAtEq : List Char → Option (List Char × List Char)
  | [] => none
  | c :: rest =>
    if c = '=' then some ([], rest)
    else
      match cutAtEq rest with
      | some kv => some (c :: kv.1, kv.2)
      | none => none

/-- Modelled from the spec: `cmd.ParseFlagMap` is not part of this fragment.
The spec states that malformed `key=value` flag pairs (an entry lacking `=`)
cause an immediate parse error; well-formed entries are split at the first
`=` into key/value pairs. -/
def parseFlagMap (entries : List String) (flagName : String) :
    Except String (List (String × String)) :=
  match entries with
  | [] => .ok []
  | e :: rest =>
    match cutAtEq e.toList with
    | some kv =>
      match parseFlagMap rest flagName with
      | .ok m => .ok ((⟨kv.1⟩, ⟨kv.2⟩) :: m)
      | .error err => .error err
    | none =>
      .error ("could not parse flag " ++ flagName ++ ": key-value pair requires = as separator")

/-- Modelled from the spec: `resolveArtifactDigestReference` is not part of
this fragment. In OCI-layout mode the resolved reference is combined with the
trust-policy scope into an intended reference tagged with the scope
namespace; with no scope the resolved reference is used as is. -/
def resolveArtifactDigestReference (resolvedRef scope : String) : String :=
  if scope = "" then resolvedRef else scope ++ "@" ++ resolvedRef

/-- Input mode of the command (remote registry or local OCI layout). -/
inductive InputType where
  | registry
  | ociLayout
deriving DecidableEq

/-- The fields of `verifyOpts` the workflow reads. -/
structure VerifyOpts where
  reference : String
  pluginConfig : List String
  userMetadata : List String
  ociLayout : Bool
  trustPolicyScope : String
  inputType : InputType
deriving DecidableEq

/-- The `notation.VerifyOptions` record built by `runVerify` and handed to
the external `Verify` call. -/
structure VerifyOptions where
  artifactReference : String
  pluginConfig : List (String × String)
  maxSignatureAttempts : Nat
  userMetadata : List (String × String)
deriving DecidableEq

/-- The source constant `maxSignatureAttempts = math.MaxInt64`. -/
def maxSignatureAttempts : Nat := 9223372036854775807

/-- Responses of the external collaborators during one invocation:
the error of `verifier.NewFromConfig`, the result of `getRepository`, the
result of `resolveReference` (the resolved reference on success), and the
outcome list and error of `notation.Verify`. -/
structure VerifyEnv where
  newFromConfig : Option String
  getRepositoryResult : Except String Unit
  resolveResult : Except String String
  verifyResult : List VerificationOutcome × Option VerifyError

/-- The externally observable actions of `runVerify`, in order. -/
inductive Step where
  | initVerifier
  | parsePluginConfig
  | parseUserMetadata
  | getRepository
  | resolveReference
  | verify
  | report
deriving DecidableEq

/-- The result of one run: the steps performed, the returned error (`none`
is success), the printed output, the options passed to the verifier when
the `verify` step was reached, and whether the run hit the out-of-range
panic modelled in `reportVerificationSuccess`. -/
structure RunResult where
  steps : List Step
  error : Option String
  output : Output
  verifyOptions : Option VerifyOptions
  panicked : Bool
deriving DecidableEq

/-- `runVerify` of `verify.go`, with the collaborators' behaviour supplied
by `env`. Each early `return err` of the Go code is a branch producing the
error with the steps performed so far. -/
def runVerify (opts : VerifyOpts) (env : VerifyEnv) : RunResult :=
  match env.newFromConfig with
  | some e => ⟨[.initVerifier], some e, ⟨[], []⟩, none, false⟩
  | none =>
  match parseFlagMap opts.pluginConfig "plugin-config" with
  | .error e => ⟨[.initVerifier, .parsePluginConfig], some e, ⟨[], []⟩, none, false⟩
  | .ok configs =>
  match parseFlagMap opts.userMetadata "user-metadata" with
  | .error e =>
      ⟨[.initVerifier, .parsePluginConfig, .parseUserMetadata], some e, ⟨[], []⟩, none, false⟩
  | .ok userMetadata =>
  match env.getRepositoryResult with
  | .error e =>
      ⟨[.initVerifier, .parsePluginConfig, .parseUserMetadata, .getRepository],
        some e, ⟨[], []⟩, none, false⟩
  | .ok _ =>
  match env.resolveResult with
  | .error e =>
      ⟨[.initVerifier, .parsePluginConfig, .parseUserMetadata, .getRepository,
          .resolveReference], some e, ⟨[], []⟩, none, false⟩
  | .ok resolvedRef =>
    match checkVerificationFailure env.verifyResult.1 resolvedRef env.verifyResult.2 with
    | some e =>
        ⟨[.initVerifier, .parsePluginConfig, .parseUserMetadata, .getRepository,
            .resolveReference, .verify], some e, ⟨[], []⟩,
          some ⟨resolveArtifactDigestReference resolvedRef opts.trustPolicyScope, configs,
            maxSignatureAttempts, userMetadata⟩, false⟩
    | none =>
      match reportVerificationSuccess env.verifyResult.1 resolvedRef with
      | some out =>
          ⟨[.initVerifier, .parsePluginConfig, .parseUserMetadata, .getRepository,
              .resolveReference, .verify, .report], none, out,
            some ⟨resolveArtifactDigestReference resolvedRef opts.trustPolicyScope, configs,
              maxSignatureAttempts, userMetadata⟩, false⟩
      | none =>
          ⟨[.initVerifier, .parsePluginConfig, .parseUserMetadata, .getRepository,
              .resolveReference, .verify, .report], none, ⟨[], []⟩,
            some ⟨resolveArtifactDigestReference resolvedRef opts.trustPolicyScope, configs,
              maxSignatureAttempts, userMetadata⟩, true⟩

/-- The environment variable gating experimental features
(`experimental.go`). -/
def envName : String := "NOTATION_EXPERIMENTAL"

/-- The only value of the environment variable that enables experimental
features (`experimental.go`). -/
def enabled : String := "1"

/-- `IsDisabled` of `experimental.go`. The value of `os.Getenv` is passed
explicitly; an unset variable reads as the empty string, as in Go. -/
def IsDisabled (envVal : String) : Bool :=
  envVal != enabled

/-- The warning line `warn` of `experimental.go` prints to stderr. -/
def experimentalWarningLine : String :=
  "Warning: This feature is experimental and may not be fully tested or completed and may be deprecated. Report any issues to \"https://github/notaryproject/notation\""

/-- `CheckAndWarn` of `experimental.go`: an `.error` is the non-nil error
returned; an `.ok lines` is a nil error together with the stderr lines the
call printed. -/
def CheckAndWarn (envVal : String) (doCheck : String × Bool) :
    Except String (List String) :=
  let feature := doCheck.1
  let isExperimental := doCheck.2
  if isExperimental then
    if IsDisabled envVal then
      .error (feature ++ " is experimental and not enabled by default. To use, please set "
        ++ envName ++ "=" ++ enabled ++ " environment variable")
    else
      .ok [experimentalWarningLine]
  else
    .ok []

/-- `CheckFlagsAndWarn` of `experimental.go`: the flag set's `Changed`
predicate is passed explicitly. -/
def CheckFlagsAndWarn (envVal : String) (cmdPath : String) (flags : List String)
    (changed : String → Bool) : Except String (List String) :=
  let changedFlags := (flags.filter changed).map (fun f => "--" ++ f)
  if changedFlags.isEmpty then
    CheckAndWarn envVal ("", false)
  else
    CheckAndWarn envVal
      ("flag(s) " ++ String.intercalate "," changedFlags ++ " in \"" ++ cmdPath ++ "\"", true)

/-- Modelled from the spec: the CLI framework (cobra) enforces the flag
group registered by `MarkFlagsRequiredTogether("oci-layout", "scope")` in
`verifyCommand` before the command's run functions execute; an invocation
setting one of the two flags without the other is rejected. -/
def validateFlagGroups (ociLayoutSet scopeSet : Bool) : Option String :=
  if ociLayoutSet != scopeSet then
    some "if any flags in the group [oci-layout scope] are set they must all be set"
  else
    none

/-- One CLI invocation of the verify command: the positional arguments,
whether each experimental flag was set, and the value of the experimental
environment variable. -/
structure CommandInvocation where
  args : List String
  ociLayoutSet : Bool
  scopeSet : Bool
  experimentalEnv : String
deriving DecidableEq

/-- Modelled from the spec: the execution pipeline of the verify command as
the CLI framework runs it — flag-group validation, then the `Args` check
(`missing reference`), then `PreRunE` (input-type selection and the
experimental-flag gate), then `RunE` (`runVerify`). Each rejection happens
before `runVerify`, so the step list of a rejected invocation is empty. -/
def executeVerifyCommand (inv : CommandInvocation) (opts : VerifyOpts)
    (env : VerifyEnv) : RunResult :=
  match validateFlagGroups inv.ociLayoutSet inv.scopeSet with
  | some e => ⟨[], some e, ⟨[], []⟩, none, false⟩
  | none =>
  match inv.args with
  | [] => ⟨[], some "missing reference", ⟨[], []⟩, none, false⟩
  | ref :: _ =>
    let opts1 : VerifyOpts :=
      { opts with
          reference := ref
          ociLayout := inv.ociLayoutSet
          inputType := if inv.ociLayoutSet then .ociLayout else opts.inputType }
    match CheckFlagsAndWarn inv.experimentalEnv "notation verify" ["oci-layout", "scope"]
        (fun f => (f == "oci-layout" && inv.ociLayoutSet) || (f == "scope" && inv.scopeSet)) with
    | .error e => ⟨[], some e, ⟨[], []⟩, none, false⟩
    | .ok warnings =>
      let res := runVerify opts1 env
      { res with output := ⟨res.output.stdout, warnings ++ res.output.stderr⟩ }

/-- A sample outcome used by the concrete witnesses: strict level, one clean
check, one check that failed but was configured to log, and one metadata pair. -/
def sampleOutcome : VerificationOutcome :=
  ⟨⟨"strict"⟩,
    [⟨"integrity", "enforce", none⟩,
     ⟨"revocation", "log", some "revocation endpoint unreachable"⟩],
    [("buildId", "42")], none⟩

/-- A sample collaborator environment where every external call succeeds and
the verifier returns one outcome. -/
def sampleEnv : VerifyEnv :=
  ⟨none, .ok (), .ok "registry.example.io/app@sha256:feed", ([sampleOutcome], none)⟩

/-- A sample option record with no flag values set. -/
def sampleOpts : VerifyOpts :=
  ⟨"registry.example.io/app:v1", [], [], false, "", .registry⟩

/-- `cutAtEq` finds no cut exactly when the characters contain no `=`. -/
theorem cutAtEq_eq_none_iff (l : List Char) : cutAtEq l = none ↔ '=' ∉ l := by
  induction l with
  | nil => simp [cutAtEq]
  | cons c rest ih =>
    by_cases hc : c = '='
    · subst hc
      simp [cutAtEq]
    · rw [cutAtEq, if_neg hc]
      cases h : cutAtEq rest with
      | none =>
        rw [h] at ih
        have hrest : '=' ∉ rest := ih.mp rfl
        constructor
        · intro _ hmem
          rcases List.mem_cons.mp hmem with h1 | h1
          · exact hc h1.symm
          · exact hrest h1
        · intro _
          rfl
      | some kv =>
        rw [h] at ih
        have hrest : '=' ∈ rest := by
          by_contra hn
          exact Option.some_ne_none kv (ih.mpr hn)
        constructor
        · intro heq
          simp at heq
        · intro hnot
          exact absurd (List.mem_cons_of_mem c hrest) hnot

/-- A list holding an entry without `=` fails to parse, with the parse error
naming the flag. -/
theorem parseFlagMap_malformed (entries : List String) (flagName : String)
    (h : ∃ e ∈ entries, '=' ∉ e.toList) :
    parseFlagMap entries flagName =
      .error ("could not parse flag " ++ flagName ++ ": key-value pair requires = as separator") := by
  induction entries with
  | nil => simp at h
  | cons e rest ih =>
    rcases h with ⟨x, hx, hmem⟩
    rcases List.mem_cons.mp hx with rfl | hx'
    · have hcut : cutAtEq x.toList = none := (cutAtEq_eq_none_iff _).mpr hmem
      simp only [String.toList] at hcut
      simp [parseFlagMap, hcut]
    · cases hcut : cutAtEq e.toList with
      | none =>
        simp only [String.toList] at hcut
        simp [parseFlagMap, hcut]
      | some kv =>
        simp only [String.toList] at hcut
        simp [parseFlagMap, hcut, ih ⟨x, hx', hmem⟩]

/-- `checkVerificationFailure` accepts exactly when the verifier returned no
error and at least one outcome. -/
theorem checkVerificationFailure_none_iff (outcomes : List VerificationOutcome)
    (printOut : String) (err : Option VerifyError) :
    checkVerificationFailure outcomes printOut err = none ↔
      err = none ∧ outcomes ≠ [] := by
  cases err with
  | none => cases outcomes <;> simp [checkVerificationFailure]
  | some e =>
    simp only [checkVerificationFailure]
    split
    · split <;> simp
    · simp_all

/-- The stderr of the reporting step is one warning line per per-check result
carrying an error, whatever the verification level. -/
theorem reportOutcome_stderr (o : VerificationOutcome) (printout : String) :
    (reportOutcome o printout).stderr =
      (o.verificationResults.filter (fun r => r.error.isSome)).map warningLine := by
  rw [reportOutcome]
  split <;> rfl

/-- C1: for every reference and verifier error, an empty outcome list makes
`checkVerificationFailure` return a non-nil error, even when the verifier
error is nil. -/
theorem checkVerificationFailure_empty_is_failure (printOut : String)
    (err : Option VerifyError) :
    (checkVerificationFailure [] printOut err).isSome = true := by
  cases err with
  | none => simp [checkVerificationFailure]
  | some e =>
    simp only [checkVerificationFailure]
    split
    · split <;> simp
    · simp_all

/-- C2: a non-nil verifier error that is not of the verification-failed kind
is wrapped behind the failure message naming the original message; one of
that kind yields the generic message naming the resolved reference, without
the original message. -/
theorem checkVerificationFailure_error_classification
    (outcomes : List VerificationOutcome) (printOut : String) (e : VerifyError) :
    (e.isVerificationFailed = false →
      checkVerificationFailure outcomes printOut (some e) =
        some ("signature verification failed: " ++ e.message)) ∧
    (e.isVerificationFailed = true →
      checkVerificationFailure outcomes printOut (some e) =
        some ("signature verification failed for all the signatures associated with "
          ++ printOut)) := by
  constructor <;> intro h <;> simp [checkVerificationFailure, h]

/-- C2 witness: a transport error is wrapped; a verification-failed error is
replaced by the generic message. -/
theorem checkVerificationFailure_error_classification_witness :
    checkVerificationFailure [] "registry.example.io/app@sha256:feed"
        (some (VerifyError.other "connection reset")) =
      some ("signature verification failed: " ++ "connection reset") ∧
    checkVerificationFailure [] "registry.example.io/app@sha256:feed"
        (some (VerifyError.verificationFailed "digest mismatch")) =
      some ("signature verification failed for all the signatures associated with "
        ++ "registry.example.io/app@sha256:feed") :=
  ⟨(checkVerificationFailure_error_classification [] _ _).1 rfl,
   (checkVerificationFailure_error_classification [] _ _).2 rfl⟩

/-- C3: when the first outcome's verification level is the skip level, the
success-reporting step prints exactly the skip line on stdout: no success
line and no metadata text. -/
theorem reportVerificationSuccess_skip (o : VerificationOutcome)
    (rest : List VerificationOutcome) (printout : String)
    (h : o.verificationLevel = levelSkip) :
    ∃ out, reportVerificationSuccess (o :: rest) printout = some out ∧
      out.stdout =
        ["Trust policy is configured to skip signature verification for " ++ printout] := by
  refine ⟨reportOutcome o printout, rfl, ?_⟩
  simp [reportOutcome, h]

/-- C3 witness: a concrete skip-level outcome with metadata produces only the
skip line on stdout. -/
theorem reportVerificationSuccess_skip_witness :
    ∃ out,
      reportVerificationSuccess
          [⟨levelSkip, [⟨"integrity", "skip", none⟩], [("k", "v")], none⟩] "ref" = some out ∧
      out.stdout =
        ["Trust policy is configured to skip signature verification for " ++ "ref"] :=
  reportVerificationSuccess_skip _ [] "ref" rfl

/-- Shape facts about every run: a run that reaches the reporting step
returns no error, no run hits the modelled panic, and the options handed to
the verifier always carry `maxSignatureAttempts`. -/
theorem runVerify_shape (opts : VerifyOpts) (env : VerifyEnv) :
    (Step.report ∈ (runVerify opts env).steps → (runVerify opts env).error = none) ∧
    (runVerify opts env).panicked = false ∧
    (∀ v, (runVerify opts env).verifyOptions = some v →
      v.maxSignatureAttempts = maxSignatureAttempts) := by
  unfold runVerify
  repeat' split
  all_goals refine ⟨fun h => ?_, ?_, fun v hv => ?_⟩
  all_goals try rfl
  all_goals try exact absurd h (by simp)
  all_goals try (cases hv; rfl)
  all_goals try simp at hv
  rename_i dx1 hcheck dx2 hrep
  have hne := ((checkVerificationFailure_none_iff _ _ _).mp hcheck).2
  cases hlist : env.verifyResult.1 with
  | nil => exact absurd hlist hne
  | cons o t =>
    rw [hlist] at hrep
    simp [reportVerificationSuccess] at hrep


/-- C4: on the success path exactly the first outcome record is used for
reporting (the result is determined by the head, whatever the rest of the
list is), one warning line is printed per per-check result carrying a
non-nil error, and a run that reaches the reporting step returns no error. -/
theorem reportVerificationSuccess_first_outcome_and_warnings :
    (∀ (o : VerificationOutcome) (rest : List VerificationOutcome) (printout : String),
      reportVerificationSuccess (o :: rest) printout = some (reportOutcome o printout) ∧
      (reportOutcome o printout).stderr =
        (o.verificationResults.filter (fun r => r.error.isSome)).map warningLine) ∧
    (∀ (opts : VerifyOpts) (env : VerifyEnv),
      Step.report ∈ (runVerify opts env).steps → (runVerify opts env).error = none) :=
  ⟨fun o _ printout => ⟨rfl, reportOutcome_stderr o printout⟩,
   fun opts env => (runVerify_shape opts env).1⟩

/-- C4 witness: the sample outcome's single warning line appears on stderr,
the report ignores a second outcome, and the sample run succeeds. -/
theorem reportVerificationSuccess_first_outcome_and_warnings_witness :
    reportVerificationSuccess [sampleOutcome, sampleOutcome] "ref" =
      some (reportOutcome sampleOutcome "ref") ∧
    (reportOutcome sampleOutcome "ref").stderr =
      ["Warning: revocation was set to \"log\" and failed with error: revocation endpoint unreachable"] ∧
    (runVerify sampleOpts sampleEnv).error = none :=
  ⟨(reportVerificationSuccess_first_outcome_and_warnings.1 sampleOutcome [sampleOutcome] "ref").1,
   by
    rw [(reportVerificationSuccess_first_outcome_and_warnings.1 sampleOutcome [sampleOutcome] "ref").2]
    rfl,
   reportVerificationSuccess_first_outcome_and_warnings.2 sampleOpts sampleEnv (by decide)⟩

/-- C5: once the verifier is constructed, a plugin-config list holding an
entry without `=` makes the run fail with the parse error, and neither the
repository step, the resolution step, nor the verification step happens. -/
theorem runVerify_malformed_plugin_config_aborts (opts : VerifyOpts) (env : VerifyEnv)
    (hinit : env.newFromConfig = none)
    (h : ∃ e ∈ opts.pluginConfig, '=' ∉ e.toList) :
    (runVerify opts env).error =
      some ("could not parse flag " ++ "plugin-config"
        ++ ": key-value pair requires = as separator") ∧
    Step.getRepository ∉ (runVerify opts env).steps ∧
    Step.resolveReference ∉ (runVerify opts env).steps ∧
    Step.verify ∉ (runVerify opts env).steps := by
  have hpf := parseFlagMap_malformed opts.pluginConfig "plugin-config" h
  unfold runVerify
  rw [hinit, hpf]
  exact ⟨rfl, by simp, by simp, by simp⟩

/-- C5 witness: a concrete invocation with the malformed entry `novalue`
fails with the parse error before any repository or verification step. -/
theorem runVerify_malformed_plugin_config_aborts_witness :
    (runVerify { sampleOpts with pluginConfig := ["novalue"] } sampleEnv).error =
      some ("could not parse flag " ++ "plugin-config"
        ++ ": key-value pair requires = as separator") ∧
    Step.getRepository ∉
      (runVerify { sampleOpts with pluginConfig := ["novalue"] } sampleEnv).steps ∧
    Step.resolveReference ∉
      (runVerify { sampleOpts with pluginConfig := ["novalue"] } sampleEnv).steps ∧
    Step.verify ∉
      (runVerify { sampleOpts with pluginConfig := ["novalue"] } sampleEnv).steps :=
  runVerify_malformed_plugin_config_aborts _ _ rfl ⟨"novalue", by decide, by decide⟩

/-- C7: for a non-skip first outcome the stdout is the success line followed
by the metadata section; the metadata section holds the header and the
key/value pairs when the metadata is non-empty and is empty otherwise. -/
theorem reportVerificationSuccess_metadata (o : VerificationOutcome)
    (rest : List VerificationOutcome) (printout : String)
    (h : o.verificationLevel ≠ levelSkip) :
    ∃ out, reportVerificationSuccess (o :: rest) printout = some out ∧
      out.stdout = ("Successfully verified signature for " ++ printout)
        :: printMetadataIfPresent o ∧
      (o.userMetadata ≠ [] →
        printMetadataIfPresent o =
          "\nThe artifact was signed with the following user metadata."
            :: printMetadataMap o.userMetadata) ∧
      (o.userMetadata = [] → printMetadataIfPresent o = []) := by
  refine ⟨reportOutcome o printout, rfl, ?_, ?_, ?_⟩
  · simp [reportOutcome, h]
  · intro hm
    have hlen : 0 < o.userMetadata.length := List.length_pos.mpr hm
    simp [printMetadataIfPresent, hlen]
  · intro hm
    simp [printMetadataIfPresent, hm]

/-- C7 witness: the sample outcome yields the success line followed by the
metadata header and its one pair. -/
theorem reportVerificationSuccess_metadata_witness :
    ∃ out, reportVerificationSuccess [sampleOutcome] "ref" = some out ∧
      out.stdout = ("Successfully verified signature for " ++ "ref")
        :: printMetadataIfPresent sampleOutcome ∧
      (sampleOutcome.userMetadata ≠ [] →
        printMetadataIfPresent sampleOutcome =
          "\nThe artifact was signed with the following user metadata."
            :: printMetadataMap sampleOutcome.userMetadata) ∧
      (sampleOutcome.userMetadata = [] → printMetadataIfPresent sampleOutcome = []) :=
  reportVerificationSuccess_metadata sampleOutcome [] "ref" (by decide)

/-- C9: whenever `checkVerificationFailure` accepts, the outcome list is
non-empty and the head access of the reporting step is in bounds; no run of
the workflow hits the modelled out-of-range panic. -/
theorem reportVerificationSuccess_always_in_bounds :
    (∀ (outcomes : List VerificationOutcome) (printOut : String)
        (err : Option VerifyError),
      checkVerificationFailure outcomes printOut err = none →
        outcomes ≠ [] ∧ (reportVerificationSuccess outcomes printOut).isSome = true) ∧
    (∀ (opts : VerifyOpts) (env : VerifyEnv), (runVerify opts env).panicked = false) := by
  constructor
  · intro outcomes printOut err h
    have hne := ((checkVerificationFailure_none_iff outcomes printOut err).mp h).2
    refine ⟨hne, ?_⟩
    cases outcomes with
    | nil => exact absurd rfl hne
    | cons o t => rfl
  · intro opts env
    exact (runVerify_shape opts env).2.1

/-- C9 witness: a concrete accepted outcome list is non-empty, its report is
in bounds, and the sample run does not panic. -/
theorem reportVerificationSuccess_always_in_bounds_witness :
    ([sampleOutcome] ≠ [] ∧
      (reportVerificationSuccess [sampleOutcome] "ref").isSome = true) ∧
    (runVerify sampleOpts sampleEnv).panicked = false :=
  ⟨reportVerificationSuccess_always_in_bounds.1 [sampleOutcome] "ref" none (by decide),
   reportVerificationSuccess_always_in_bounds.2 sampleOpts sampleEnv⟩

/-- C6: an invocation setting exactly one of the oci-layout and scope flags
is rejected by the flag-group validation with nothing of the workflow run:
the step list stays empty, so the verifier is never invoked. -/
theorem executeVerifyCommand_flag_group (inv : CommandInvocation) (opts : VerifyOpts)
    (env : VerifyEnv) (h : inv.ociLayoutSet ≠ inv.scopeSet) :
    (executeVerifyCommand inv opts env).error =
      some "if any flags in the group [oci-layout scope] are set they must all be set" ∧
    (executeVerifyCommand inv opts env).steps = [] := by
  have hval : validateFlagGroups inv.ociLayoutSet inv.scopeSet =
      some "if any flags in the group [oci-layout scope] are set they must all be set" := by
    unfold validateFlagGroups
    simp [bne_iff_ne, h]
  unfold executeVerifyCommand
  rw [hval]
  exact ⟨rfl, rfl⟩

/-- C6 witness: setting only the oci-layout flag is rejected with the
flag-group error and an empty step list. -/
theorem executeVerifyCommand_flag_group_witness :
    (executeVerifyCommand ⟨["registry.example.io/app@sha256:feed"], true, false, "1"⟩
        sampleOpts sampleEnv).error =
      some "if any flags in the group [oci-layout scope] are set they must all be set" ∧
    (executeVerifyCommand ⟨["registry.example.io/app@sha256:feed"], true, false, "1"⟩
        sampleOpts sampleEnv).steps = [] :=
  executeVerifyCommand_flag_group _ _ _ (by decide)

/-- C8: the attempt bound handed to the verifier is the fixed constant
`2 ^ 63 - 1` (the maximum signed 64-bit integer), for every invocation that
reaches the verify call. -/
theorem maxSignatureAttempts_is_maxInt64 :
    maxSignatureAttempts = 2 ^ 63 - 1 ∧
    ∀ (opts : VerifyOpts) (env : VerifyEnv) (v : VerifyOptions),
      (runVerify opts env).verifyOptions = some v →
        v.maxSignatureAttempts = 2 ^ 63 - 1 := by
  have hc : maxSignatureAttempts = 2 ^ 63 - 1 := by norm_num [maxSignatureAttempts]
  refine ⟨hc, fun opts env v hv => ?_⟩
  rw [(runVerify_shape opts env).2.2 v hv]
  exact hc

/-- C8 witness: the sample run hands the verifier options carrying the
constant bound. -/
theorem maxSignatureAttempts_is_maxInt64_witness :
    maxSignatureAttempts = 2 ^ 63 - 1 ∧
    (⟨"registry.example.io/app@sha256:feed", [], maxSignatureAttempts, []⟩
        : VerifyOptions).maxSignatureAttempts = 2 ^ 63 - 1 :=
  ⟨maxSignatureAttempts_is_maxInt64.1,
   maxSignatureAttempts_is_maxInt64.2 sampleOpts sampleEnv
     ⟨"registry.example.io/app@sha256:feed", [], maxSignatureAttempts, []⟩ (by decide)⟩

/-- C10: experimental features count as enabled only when the environment
variable is exactly "1": any other value leaves `IsDisabled` true and makes
`CheckAndWarn` return an error for an experimental feature rather than the
warning, while the value "1" opens the gate. -/
theorem experimental_enabled_only_by_one (envVal feature : String)
    (h : envVal ≠ "1") :
    IsDisabled envVal = true ∧
    CheckAndWarn envVal (feature, true) =
      .error (feature ++ " is experimental and not enabled by default. To use, please set "
        ++ envName ++ "=" ++ enabled ++ " environment variable") ∧
    IsDisabled "1" = false := by
  have hd : IsDisabled envVal = true := by
    simp [IsDisabled, enabled, bne_iff_ne, h]
  refine ⟨hd, ?_, by decide⟩
  simp [CheckAndWarn, hd]

/-- C10 witness: the value "true" does not enable experimental features; the
oci-layout flag is rejected with the explanatory error. -/
theorem experimental_enabled_only_by_one_witness :
    IsDisabled "true" = true ∧
    CheckAndWarn "true" ("flag(s) --oci-layout in \"notation verify\"", true) =
      .error ("flag(s) --oci-layout in \"notation verify\""
        ++ " is experimental and not enabled by default. To use, please set "
        ++ envName ++ "=" ++ enabled ++ " environment variable") ∧
    IsDisabled "1" = false :=
  experimental_enabled_only_by_one "true" _ (by decide)
